import Mathlib

/-!
tiger-slack: verification of the ingestion, backfill and migration machinery.

Shallow embedding of the concurrency/resumability core of the repository:

* the token-budget batching worker `process_file_worker` and the pool driver
  `load_messages` (src/ingest/tiger_slack/import.py),
* the request builder of `add_message_embeddings` and the searchable-content
  generator `add_message_searchable_content` (src/ingest/tiger_slack/utils.py),
* the two-phase backfill `backfill_batch_with_attachments` /
  `backfill_worker_with_attachments` (src/ingest/scripts/backfill_searchable_content.py),
* the schema-migration runner `migrate_db` (src/ingest/tiger_slack/migrations/runner.py).

Effectful Python is modelled by explicit state passing; machine behaviour that
raises is modelled with `Except`/`Option`; every definition is executable.
-/

namespace TigerSlack

/-! ## Ingestion worker (src/ingest/tiger_slack/import.py)

A message is represented by an identifier and its token cost
(`len(token_encoder.encode(text))`; a falsy `text` encodes to cost 0, which is
simply a cost-0 message here). -/

/-- Constant `MAX_TOKENS_PER_EMBEDDING_REQUEST = 300_000` (import.py line 29; the same
constant is exported by `tiger_slack.constants` for utils.py). -/
def MAX_TOKENS_PER_EMBEDDING_REQUEST : Nat := 300000

/-- Constant `DESIRED_BATCH_SIZE = 500` (import.py line 30). -/
def DESIRED_BATCH_SIZE : Nat := 500

/-- One Slack message as seen by the batching worker: an identity tag and the
token count of its `text` field. -/
structure Msg where
  id : Nat
  cost : Nat
deriving DecidableEq, Repr

/-- Mutable state of one worker between queue items: the open batch
(`current_message_batch`) and the buffer of messages still to examine
(`message_buffer`).  Line 169 annotates `message_buffer` as a `deque` but
assigns `[]`, a plain Python list (annotations have no runtime effect), and
`message_buffer += deque(...)` extends the list, which stays a list. -/
structure WState where
  batch : List Msg
  buffer : List Msg
deriving DecidableEq, Repr

deriving instance DecidableEq for Except

/-- A value taken from the `asyncio.Queue`: the `None` sentinel, or a file whose
read/`json.loads` either succeeds with a list of messages or raises. -/
inductive QItem where
  | sentinel
  | file (content : Except Unit (List Msg))
deriving DecidableEq, Repr

/-- Which exception escapes the worker loop. -/
inductive CrashKind where
  /-- The exception raised by the `aiofiles` read or `json.loads`. -/
  | parseError
  /-- AttributeError at `message_buffer.popleft()`: `message_buffer` is a
  plain list (import.py line 169 assigns `[]` despite the `deque` annotation),
  and lists have no `popleft`. -/
  | attributeError
deriving DecidableEq, Repr

/-- How the worker coroutine ends. -/
inductive WorkerOutcome where
  /-- Received its sentinel, flushed the residual batch iff non-empty, and
  returned. -/
  | finished
  /-- An uncaught exception escaped the `while True` loop (the file-processing
  body has `try ... finally: file_queue.task_done()` with no `except`). -/
  | crashed (k : CrashKind)
  /-- The queue was exhausted without a sentinel: `await file_queue.get()`
  blocks forever. -/
  | blocked
deriving DecidableEq, Repr

/-- Processing of one successfully read and parsed queue item (import.py lines
185-219): the parsed messages are appended to the buffer; if the buffer is now
non-empty, the first iteration of the inner
`while len(message_buffer) and should_add_messages_to_current_batch` loop
calls `message_buffer.popleft()` on the plain list and raises `AttributeError`
(`none` — the message costs are never even read); if the buffer is empty the
loop body never runs and the open batch is flushed via `insert_messages` iff
it has reached `DESIRED_BATCH_SIZE`. -/
def processItem (msgs : List Msg) (st : WState) : Option (WState × List (List Msg)) :=
  let buf := st.buffer ++ msgs
  if buf.isEmpty then
    if DESIRED_BATCH_SIZE ≤ st.batch.length then
      some (⟨[], buf⟩, [st.batch])
    else
      some (⟨st.batch, buf⟩, [])
  else
    none

/-- Function `process_file_worker` (import.py lines 163-231) on the sequence
of queue values this worker dequeues.  It loops taking items: a sentinel
breaks the loop, after which
`remaining_messages = [*current_message_batch, *message_buffer]` is flushed
iff non-empty; a file whose read or parse raises propagates that exception out
of the worker (the loop body is `try`/`finally` with no `except`); a file that
parses is handled by `processItem`, whose `AttributeError` propagates the same
way.  Either crash aborts the worker: nothing further is flushed and no later
queue item is consumed. -/
def processFileWorker (queue : List QItem) (st : WState) : List (List Msg) × WorkerOutcome :=
  match queue with
  | [] => ([], .blocked)
  | .sentinel :: _ =>
    let rem := st.batch ++ st.buffer
    (if 0 < rem.length then [rem] else [], .finished)
  | .file (.error _) :: _ => ([], .crashed .parseError)
  | .file (.ok msgs) :: rest =>
    match processItem msgs st with
    | none => ([], .crashed .attributeError)
    | some r =>
      let rs := processFileWorker rest r.1
      (r.2 ++ rs.1, rs.2)

/-- A worker of `load_messages` that dequeues exactly the well-formed jobs
`jobs` followed by one sentinel, starting from the initial empty state. -/
def workerRun (jobs : List (List Msg)) : List (List Msg) × WorkerOutcome :=
  processFileWorker (jobs.map (fun j => QItem.file (Except.ok j)) ++ [QItem.sentinel]) ⟨[], []⟩

/-! ### The worker can never flush

From the initial state the batch and the buffer stay empty for as long as the
worker survives: a queue item that parses to an empty message list leaves the
state unchanged, any item that parses to one or more messages crashes the
worker before the batch can grow, and a failing read/parse crashes it too.  So
neither the size-threshold flush nor the final residual flush is ever
reached. -/

theorem processFileWorker_empty_file_step (rest : List QItem) :
    processFileWorker (QItem.file (Except.ok []) :: rest) ⟨[], []⟩
      = processFileWorker rest ⟨[], []⟩ :=
  rfl

theorem processFileWorker_no_flush (queue : List QItem) :
    (processFileWorker queue ⟨[], []⟩).1 = [] := by
  induction queue with
  | nil => rfl
  | cons q rest ih =>
    cases q with
    | sentinel => rfl
    | file c =>
      cases c with
      | error e => rfl
      | ok msgs =>
        cases msgs with
        | nil =>
          rw [processFileWorker_empty_file_step]
          exact ih
        | cons m ms => rfl

theorem processFileWorker_crash_parse (pre : List (List Msg)) :
    ∀ rest : List QItem, (∀ j ∈ pre, j = ([] : List Msg)) →
      processFileWorker
          (pre.map (fun j => QItem.file (Except.ok j)) ++ QItem.file (Except.error ()) :: rest)
          ⟨[], []⟩
        = ([], .crashed .parseError) := by
  induction pre with
  | nil =>
    intro rest _
    rfl
  | cons j ps ih =>
    intro rest hpre
    have hj : j = [] := hpre j (by simp)
    subst hj
    rw [List.map_cons, List.cons_append, processFileWorker_empty_file_step]
    exact ih rest fun x hx => hpre x (by simp [hx])

theorem processFileWorker_crash_attr (pre : List (List Msg)) :
    ∀ (msgs : List Msg) (rest : List QItem),
      (∀ j ∈ pre, j = ([] : List Msg)) → msgs ≠ [] →
      processFileWorker
          (pre.map (fun j => QItem.file (Except.ok j)) ++ QItem.file (Except.ok msgs) :: rest)
          ⟨[], []⟩
        = ([], .crashed .attributeError) := by
  induction pre with
  | nil =>
    intro msgs rest _ hne
    cases msgs with
    | nil => exact absurd rfl hne
    | cons m ms => rfl
  | cons j ps ih =>
    intro msgs rest hpre hne
    have hj : j = [] := hpre j (by simp)
    subst hj
    rw [List.map_cons, List.cons_append, processFileWorker_empty_file_step]
    exact ih msgs rest (fun x hx => hpre x (by simp [hx])) hne

theorem workerRun_all_empty (jobs : List (List Msg)) :
    (∀ j ∈ jobs, j = ([] : List Msg)) → workerRun jobs = ([], .finished) := by
  induction jobs with
  | nil =>
    intro _
    rfl
  | cons j ps ih =>
    intro h
    have hj : j = [] := h j (by simp)
    subst hj
    unfold workerRun
    rw [List.map_cons, List.cons_append, processFileWorker_empty_file_step]
    exact ih fun x hx => h x (by simp [hx])

/-! ## Request building of `add_message_embeddings`
(src/ingest/tiger_slack/utils.py lines 249-297)

Each message is represented by the token cost of its content, `none` standing
for falsy content (skipped by the `continue`). -/

/-- The `for request_index, message in enumerate(messages)` loop.  State:
`embedding_requests` (each request abstracted to the token costs it carries),
`embedding_requests_index` and `token_count`.  When the message does not fit,
the index advances and the count resets — but the message is appended
unconditionally to whatever request the index now points at; at most one empty
request is appended per message, so if the index skips past the end the
subscript raises `IndexError`, modelled as `.error ()`. -/
def embeddingRequestsGo (requests : List (List Nat)) (idx tokenCount : Nat) :
    List (Option Nat) → Except Unit (List (List Nat))
  | [] => .ok requests
  | none :: rest => embeddingRequestsGo requests idx tokenCount rest
  | some cost :: rest =>
    let idx' := if tokenCount + cost < MAX_TOKENS_PER_EMBEDDING_REQUEST then idx else idx + 1
    let tc' := if tokenCount + cost < MAX_TOKENS_PER_EMBEDDING_REQUEST then tokenCount else 0
    let reqs := if requests.length ≤ idx' then requests ++ [[]] else requests
    if h : idx' < reqs.length then
      embeddingRequestsGo (reqs.set idx' (reqs[idx'] ++ [cost])) idx' (tc' + cost) rest
    else
      .error ()

/-- The requests `add_message_embeddings` would send to the embedder for the
given message contents. -/
def addMessageEmbeddingsRequests (contents : List (Option Nat)) :
    Except Unit (List (List Nat)) :=
  embeddingRequestsGo [] 0 0 contents

/-! ## `add_message_searchable_content` (src/ingest/tiger_slack/utils.py lines 166-221)

An attachment dictionary is modelled by what the accumulation loop reads from
the `slack_sdk.Attachment` object built for it: optional `title`, `text` and
`fallback` strings, and the texts contributed by its `fields`.  An element on
which `get_attachment` raises (malformed blocks, a non-dict element, ...) is
`none`; since the whole list is materialised by `list(map(get_attachment, ...))`
before the loop, one such element discards every attachment contribution.
Attachments carrying `blocks` take the `BlockAttachment` branch instead of the
`Attachment` branch; the claims only concern plain attachments, modelled
here. -/

/-- Fields of a successfully constructed plain attachment. -/
structure AttData where
  title : Option String
  text : Option String
  fallback : Option String
  fieldTexts : List String
deriving DecidableEq, Repr

/-- Appending an optional piece: the source guards each append with Python
truthiness, which skips both a missing and an empty string, and prepends a
newline to what it appends. -/
def optPiece (o : Option String) : String :=
  match o with
  | none => ""
  | some t => if t = "" then "" else "\n" ++ t

/-- The accumulation loop body for one plain attachment at index `i` (0-based;
the header prints `index + 1`): header, then `title`/`text` (lines 179-182),
then — because `isinstance(attachment, Attachment)` — `title`/`text` once more
(lines 184-188) and the field texts (lines 189-191); the fallback is appended
only when the whole accumulated content is still falsy (line 215), which the
header makes unreachable. -/
def attAccum (content : String) (i : Nat) (a : AttData) : String :=
  let s := content ++ "\n\nAttachment " ++ toString (i + 1)
  let s := s ++ optPiece a.title ++ optPiece a.text
  let s := s ++ optPiece a.title ++ optPiece a.text
  let s := s ++ (a.fieldTexts.map (fun f => "\n" ++ f)).foldl (· ++ ·) ""
  if s = "" then s ++ optPiece a.fallback else s

/-- Folds `attAccum` over the parsed attachments with their indices. -/
def accumAtts (content : String) (i : Nat) (atts : List AttData) : String :=
  match atts with
  | [] => content
  | a :: rest => accumAtts (attAccum content i a) (i + 1) rest

/-- Function `add_message_searchable_content`, on a message with SQL `text` column
`text` (`none` = NULL) and `attachments` column `attachments` (`none` = NULL,
elements `none` = raising `get_attachment`).  Returns the value stored into
`message["searchable_content"]`:

* `text` is `None`: `searchable_content` starts as `None`, the first `+=`
  inside the `try` raises `TypeError`, which the bare `except` swallows, and
  `None` being falsy the field is set to `None`;
* any attachment fails to parse: `list(map(get_attachment, ...))` raises
  before the loop, the `except` swallows it, and the field is the `text` when
  truthy, else `None`;
* otherwise the accumulated content (never empty once an attachment header was
  appended), or `None` when it is empty. -/
def addMessageSearchableContent (text : Option String)
    (attachments : Option (List (Option AttData))) : Option String :=
  match text with
  | none => none
  | some t =>
    let atts := attachments.getD []
    if atts.any Option.isNone then
      if t = "" then none else some t
    else
      let content := accumAtts t 0 atts.reduceOption
      if content = "" then none else some content

/-! ## Backfill slow path (src/ingest/scripts/backfill_searchable_content.py)

A table row of `slack.message_vanilla` carries its key `(ts, channel_id)`,
the `text` and `attachments` columns, the `searchable_content` column and
whether an embedding is stored.  The table list is kept in
`ORDER BY channel_id, ts` order, which the fetch query's `ORDER BY` returns. -/

structure Row where
  ts : Nat
  channel : Nat
  text : Option String
  attachments : Option (List (Option AttData))
  searchable : Option String
  embedded : Bool
deriving DecidableEq, Repr

/-- SQL condition `attachments IS NOT NULL AND jsonb_array_length(attachments) > 0`. -/
def hasAttachments (r : Row) : Bool :=
  match r.attachments with
  | none => false
  | some l => 0 < l.length

/-- The unprocessed predicate of the slow path:
`searchable_content IS NULL AND attachments IS NOT NULL AND
jsonb_array_length(attachments) > 0`. -/
def matchesUnprocessed (r : Row) : Bool :=
  r.searchable.isNone && hasAttachments r

/-- The rows the `SELECT ... FOR UPDATE SKIP LOCKED` of
`backfill_batch_with_attachments` claims: the first `batchSize` rows matching
the unprocessed predicate. -/
def claimedRows (batchSize : Nat) (table : List Row) : List Row :=
  (table.filter matchesUnprocessed).take batchSize

/-- Errors of one slow-path batch. -/
inductive BfErr where
  /-- The call `add_message_embeddings(messages_to_embed, use_dummy_embeddings=...)`:
  the callee has no `use_dummy_embeddings` parameter, so Python raises
  `TypeError` at the call site. -/
  | embedCallTypeError
deriving DecidableEq, Repr

/-- The `UPDATE ... SET searchable_content = %s, embedding = COALESCE(%s,
embedding) WHERE ts = ... AND channel_id = ...` writeback applied for every
processed message. -/
def applyWriteback (table : List Row) (msgs : List Row) : List Row :=
  table.map fun r =>
    match msgs.find? (fun m => m.ts == r.ts && m.channel == r.channel) with
    | some m => { r with searchable := m.searchable, embedded := r.embedded || m.embedded }
    | none => r

/-- The transaction body of `backfill_batch_with_attachments` (lines 156-222):
fetch the claimed rows; if none, return 0; generate searchable content for
each; compute `messages_to_embed` (rows with truthy attachments — always all
of them, by the fetch predicate); if non-empty, call `add_message_embeddings`
with the `use_dummy_embeddings` keyword the function does not accept, raising
`TypeError`; otherwise write back and commit, reporting the row count. -/
def backfillBatchWithAttachments (batchSize : Nat) (table : List Row) :
    Except BfErr (List Row × Nat) :=
  let rows := claimedRows batchSize table
  if rows.isEmpty then
    .ok (table, 0)
  else
    let msgs := rows.map fun r =>
      { r with searchable := addMessageSearchableContent r.text r.attachments }
    let toEmbed := msgs.filter hasAttachments
    if toEmbed.isEmpty then
      .ok (applyWriteback table msgs, msgs.length)
    else
      .error .embedCallTypeError

/-- The transaction wrapper: on any exception the `except` clause runs
`conn.rollback()` and re-raises, so the table is left exactly as it was. -/
def runBackfillBatch (batchSize : Nat) (table : List Row) : List Row × Except BfErr Nat :=
  match backfillBatchWithAttachments batchSize table with
  | .ok (t, n) => (t, .ok n)
  | .error e => (table, .error e)

/-- Function `backfill_worker_with_attachments` (lines 229-260): loop
`claim -> process -> commit` until a batch reports 0 rows, accumulating the
total; an exception from the batch propagates (the worker has no `try`).
`fuel` bounds the number of iterations we unfold; `none` means the loop was
still running when the fuel ran out. -/
def backfillWorkerWithAttachments (fuel batchSize : Nat) (table : List Row)
    (total : Nat) : Option (Except BfErr (Nat × List Row)) :=
  match fuel with
  | 0 => none
  | fuel + 1 =>
    match runBackfillBatch batchSize table with
    | (_, .error e) => some (.error e)
    | (t, .ok n) =>
      if n = 0 then some (.ok (total, t))
      else backfillWorkerWithAttachments fuel batchSize t (total + n)

/-- A well-formed plain attachment used in concrete runs. -/
def sampleAtt : AttData := ⟨some "T", some "X", none, []⟩

/-- An unprocessed row with one well-formed attachment and non-empty text. -/
def row1 : Row := ⟨10, 1, some "hello", some [some sampleAtt], none, false⟩

/-- An unprocessed row with empty text and one attachment on which
`get_attachment` raises. -/
def poisonRow : Row := ⟨20, 2, some "", some [none], none, false⟩

end TigerSlack

namespace TigerSlack

/-! ## Claims C5, C6, C10 -/

/-- C5 (the code evaluated at the failing input).  One unprocessed row with an
attachment, any number of workers: the first claimed batch calls
`add_message_embeddings(messages_to_embed, use_dummy_embeddings=...)`, but the
function has no `use_dummy_embeddings` parameter, so Python raises `TypeError`
at the call; the transaction rolls back, the exception propagates through
`backfill_worker_with_attachments` (which has no `try`) and
`asyncio.gather`, and the whole run aborts with zero rows processed — the run
never reaches a zero-row claim, contradicting the claim (which matches the
script's own docstring, so the code is the bug). -/
theorem c5_backfill_typeerror_eval :
    matchesUnprocessed row1 = true ∧
    runBackfillBatch 1000 [row1] = ([row1], .error .embedCallTypeError) ∧
    backfillWorkerWithAttachments 5 1000 [row1] 0 = some (.error .embedCallTypeError) := by
  exact ⟨rfl, rfl, rfl⟩

/-- C6.  Whenever `backfill_batch_with_attachments` raises, the `except`
clause rolls the claimed transaction back: the table is exactly what it was,
every claimed row is still present, and every claimed row still matches the
unprocessed predicate (it matched when fetched).  Note that in the code as
written every non-empty claimed batch does raise — at the
`add_message_embeddings` call, whose `use_dummy_embeddings` keyword the callee
rejects — and that exceptions inside `add_message_searchable_content` and
inside the embedder loop of `add_message_embeddings` are caught internally and
never reach this handler. -/
theorem c6_rollback_on_error (batchSize : Nat) (table : List Row) (e : BfErr)
    (h : (runBackfillBatch batchSize table).2 = .error e) :
    (runBackfillBatch batchSize table).1 = table ∧
    ∀ r ∈ claimedRows batchSize table,
      r ∈ (runBackfillBatch batchSize table).1 ∧ matchesUnprocessed r = true := by
  cases hb : backfillBatchWithAttachments batchSize table with
  | ok p => simp [runBackfillBatch, hb] at h
  | error e' =>
    refine ⟨by simp [runBackfillBatch, hb], fun r hr => ⟨?_, ?_⟩⟩
    · simp only [runBackfillBatch, hb]
      exact (List.mem_filter.1 (List.mem_of_mem_take hr)).1
    · exact (List.mem_filter.1 (List.mem_of_mem_take hr)).2

/-- Witness for C6: the single-row table `[row1]`, on which the batch raises
the `TypeError`; the rollback leaves the table unchanged and the row still
unprocessed. -/
theorem c6_rollback_on_error_witness :
    (runBackfillBatch 1000 [row1]).1 = [row1] ∧
    (row1 ∈ (runBackfillBatch 1000 [row1]).1 ∧ matchesUnprocessed row1 = true) :=
  ⟨(c6_rollback_on_error 1000 [row1] .embedCallTypeError rfl).1,
   (c6_rollback_on_error 1000 [row1] .embedCallTypeError rfl).2 row1 (by decide)⟩

/-- C10 counterexample.  For a claimed row with empty text and an attachment
on which `get_attachment` raises, `add_message_searchable_content` does set
the field to `None` — but the claim's conclusion that the row "is written back
with searchable_content NULL ... after commit" is false on the code as
written: the batch transaction never reaches the writeback or the commit,
because the `add_message_embeddings` call raises `TypeError`
(`use_dummy_embeddings` is not a parameter of the callee) and the transaction
rolls back.  The row still matches the unprocessed predicate afterwards, but
via rollback, not via a committed NULL writeback. -/
theorem c10_no_commit_counterexample :
    addMessageSearchableContent (some "") (some [none]) = none ∧
    matchesUnprocessed poisonRow = true ∧
    runBackfillBatch 1000 [poisonRow] = ([poisonRow], .error .embedCallTypeError) := by
  exact ⟨rfl, rfl, rfl⟩

/-- C10 (amended).  `add_message_searchable_content` always returns (every
exception inside it is swallowed by its bare `except`) and always sets the
field: never to an empty string — to `None` exactly when nothing truthy
accumulated; in particular a message with falsy text whose attachment list
fails to parse gets `None`.  A claimed backfill row in that state therefore
still matches the unprocessed predicate after the batch attempt — in the code
as written because the whole claimed transaction rolls back at the embedding
call, not because a NULL writeback commits. -/
theorem c10_amended_searchable_content (text : Option String)
    (atts : Option (List (Option AttData))) :
    (∀ s, addMessageSearchableContent text atts = some s → s ≠ "") ∧
    ((atts.getD []).any Option.isNone = true →
      addMessageSearchableContent (some "") atts = none) ∧
    (∀ r : Row, r.text = some "" → r.attachments = some [none] → r.searchable = none →
      runBackfillBatch 1 [r] = ([r], .error .embedCallTypeError)) := by
  refine ⟨?_, ?_, ?_⟩
  · intro s hs hempty
    subst hempty
    unfold addMessageSearchableContent at hs
    cases text with
    | none => exact Option.noConfusion hs
    | some t =>
      simp only at hs
      split at hs
      · split at hs
        · exact Option.noConfusion hs
        · next hne => exact hne (Option.some.inj hs)
      · split at hs
        · exact Option.noConfusion hs
        · next hne => exact hne (Option.some.inj hs)
  · intro hany
    simp [addMessageSearchableContent, hany]
  · intro r h1 h2 h3
    have hm : matchesUnprocessed r = true := by
      simp [matchesUnprocessed, hasAttachments, h2, h3]
    simp [runBackfillBatch, backfillBatchWithAttachments, claimedRows, hm, h1, h2,
      addMessageSearchableContent, hasAttachments]

/-- Witness for C10: the poison row with empty text and one unparseable
attachment. -/
theorem c10_amended_searchable_content_witness :
    addMessageSearchableContent (some "") (some [none]) = none ∧
    runBackfillBatch 1 [poisonRow] = ([poisonRow], .error .embedCallTypeError) :=
  ⟨(c10_amended_searchable_content (some "") (some [none])).2.1 (by decide),
   (c10_amended_searchable_content (some "") (some [none])).2.2 poisonRow rfl rfl rfl⟩

end TigerSlack

namespace TigerSlack

/-! ## Migration runner (src/ingest/tiger_slack/migrations/runner.py)

`semver.Version` values are modelled as major/minor/patch triples compared
lexicographically; the sorted `*.sql` directory listings are modelled by the
lists of their three-digit sequence numbers (string sort on `NNN-name.sql`
filenames agrees with numeric sort on `NNN`). -/

structure Version where
  major : Nat
  minor : Nat
  patch : Nat
deriving DecidableEq, Repr

/-- The `semver` comparison `a < b`. -/
def vlt (a b : Version) : Bool :=
  (a.major < b.major) ||
    (a.major == b.major &&
      ((a.minor < b.minor) || (a.minor == b.minor && a.patch < b.patch)))

theorem vlt_irrefl (a : Version) : vlt a a = false := by
  simp [vlt]

theorem vlt_total_eq (a b : Version) (h1 : vlt a b = false) (h2 : vlt b a = false) :
    a = b := by
  cases a
  cases b
  simp only [vlt, Bool.or_eq_false_iff, Bool.and_eq_false_iff, decide_eq_false_iff_not,
    beq_eq_false_iff_ne, ne_eq, Bool.or_eq_false_iff] at h1 h2
  simp only [Version.mk.injEq]
  omega

/-- Events the runner performs against the database, in order. -/
inductive MigEv where
  /-- Advisory lock `pg_try_advisory_xact_lock` acquired in the connection of
  `install_timescaledb`. -/
  | tsLock
  /-- Script `timescaledb.sql` executed. -/
  | tsInstall
  /-- Advisory lock `pg_try_advisory_xact_lock` acquired in the main connection. -/
  | migLock
  /-- Step `run_init`: `init.sql` (bookkeeping tables) executed. -/
  | init
  /-- One templated incremental script executed (`run_incremental`). -/
  | incremental (n : Nat)
  /-- One idempotent script executed (`run_idempotent`). -/
  | idempotent (n : Nat)
  /-- Step `set_version`: `update slack.version set version = ..., at = ...`. -/
  | setVersion (v : Version)
deriving DecidableEq, Repr

/-- Is the event the execution of a migration-directory script? -/
def isScriptEv : MigEv → Bool
  | .incremental _ => true
  | .idempotent _ => true
  | _ => false

inductive MigErr where
  /-- Error of `is_migration_required`: `ValueError("Cannot downgrade ...")`. -/
  | downgrade
  /-- Error of `check_sql_file_order` / `sql_file_number`: `ValueError` on bad
  ordering. -/
  | badFileOrder
deriving DecidableEq, Repr

/-- The `check_sql_file_order` loop (runner.py lines 110-121) with
`expected = prev + 1` (`prev` starts at `-1`, so `expected` starts at 0):
a file numbered 999 ends the check; a number different from `expected`
raises; otherwise continue with the next expected number. -/
def checkSqlFileOrderGo (expected : Nat) : List Nat → Except MigErr Unit
  | [] => .ok ()
  | n :: rest =>
    if n = 999 then .ok ()
    else if n ≠ expected then .error .badFileOrder
    else checkSqlFileOrderGo (n + 1) rest

/-- Function `check_sql_file_order` on a sorted directory listing. -/
def checkSqlFileOrder (ns : List Nat) : Except MigErr Unit :=
  checkSqlFileOrderGo 0 ns

/-- Function `run_incremental` (lines 123-140): validate the ordering, then execute the
template for every listed script.  Returns the executed-script events. -/
def runIncremental (scripts : List Nat) : Except MigErr (List MigEv) :=
  match checkSqlFileOrder scripts with
  | .error e => .error e
  | .ok () => .ok (scripts.map MigEv.incremental)

/-- Function `run_idempotent` (lines 143-153): same shape, unconditional scripts. -/
def runIdempotent (scripts : List Nat) : Except MigErr (List MigEv) :=
  match checkSqlFileOrder scripts with
  | .error e => .error e
  | .ok () => .ok (scripts.map MigEv.idempotent)

/-- Database state the runner touches: the stored `slack.version` row
(version and its `at` timestamp) and whether the bookkeeping objects of
`init.sql` exist. -/
structure DBState where
  version : Version
  versionAt : Nat
  infra : Bool
deriving DecidableEq, Repr

/-- Function `migrate_db` (runner.py lines 164-196) for target version `target`, clock
value `now`, and sorted incremental/idempotent directory listings `inc`/
`idem`, on database state `s`.  Returns the events performed (in order) and
either the committed new state or the raised error (in which case the
enclosing transactions roll back and the database keeps state `s`).

Control flow: `install_timescaledb` (advisory lock + `timescaledb.sql` on its
own connection), then on the main connection the advisory lock, `run_init`,
and `is_migration_required` — which raises on `target < stored`, and returns
`target > stored`; `False` takes the no-op early return; `True` runs
`run_incremental`, `run_idempotent` and `set_version`. -/
def migrateDb (target : Version) (now : Nat) (inc idem : List Nat) (s : DBState) :
    List MigEv × Except MigErr DBState :=
  let preLog := [MigEv.tsLock, MigEv.tsInstall, MigEv.migLock, MigEv.init]
  if vlt target s.version then
    (preLog, .error .downgrade)
  else if vlt s.version target then
    match runIncremental inc with
    | .error e => (preLog, .error e)
    | .ok incEvs =>
      match runIdempotent idem with
      | .error e => (preLog ++ incEvs, .error e)
      | .ok idemEvs =>
        (preLog ++ incEvs ++ idemEvs ++ [MigEv.setVersion target],
         .ok ⟨target, now, true⟩)
  else
    (preLog, .ok ⟨s.version, s.versionAt, true⟩)

/-! ### Properties of the order check -/

/-- The claim's reading of a valid sorted listing: some prefix of length `k`
carries exactly the contiguous numbers `start, start+1, ...`, and either the
prefix is the whole listing or it stops at a file numbered 999 (whose
successors are exempt). -/
def SeqContiguousFrom (start : Nat) (ns : List Nat) : Prop :=
  ∃ k, k ≤ ns.length ∧ (∀ i, i < k → ns[i]? = some (start + i)) ∧
    (k = ns.length ∨ ns[k]? = some 999)

theorem checkGo_ok_iff (ns : List Nat) :
    ∀ e, checkSqlFileOrderGo e ns = .ok () ↔ SeqContiguousFrom e ns := by
  induction ns with
  | nil =>
    intro e
    constructor
    · intro _
      exact ⟨0, by simp, fun i hi => absurd hi (Nat.not_lt_zero i), Or.inl rfl⟩
    · intro _
      rfl
  | cons n rest ih =>
    intro e
    by_cases h999 : n = 999
    · subst h999
      constructor
      · intro _
        exact ⟨0, by simp, fun i hi => absurd hi (Nat.not_lt_zero i), Or.inr (by simp)⟩
      · intro _
        simp [checkSqlFileOrderGo]
    · by_cases heq : n = e
      · subst heq
        constructor
        · intro hok
          have hrest : checkSqlFileOrderGo (n + 1) rest = .ok () := by
            simpa [checkSqlFileOrderGo, h999] using hok
          obtain ⟨k, hk, hc, hend⟩ := (ih (n + 1)).1 hrest
          refine ⟨k + 1, by simpa using Nat.succ_le_succ hk, ?_, ?_⟩
          · intro i hi
            cases i with
            | zero => simp
            | succ i' =>
              have := hc i' (Nat.lt_of_succ_lt_succ hi)
              rw [List.getElem?_cons_succ, this]
              congr 1
              omega
          · cases hend with
            | inl h => exact Or.inl (by simp [h])
            | inr h => exact Or.inr (by simpa using h)
        · rintro ⟨k, hk, hc, hend⟩
          cases k with
          | zero =>
            rcases hend with h | h
            · simp at h
            · simp at h
              exact absurd h h999
          | succ k' =>
            have hrest : SeqContiguousFrom (n + 1) rest := by
              refine ⟨k', by simpa using hk, ?_, ?_⟩
              · intro i hi
                have := hc (i + 1) (Nat.succ_lt_succ hi)
                rw [List.getElem?_cons_succ] at this
                rw [this]
                congr 1
                omega
              · rcases hend with h | h
                · exact Or.inl (by simpa using h)
                · exact Or.inr (by simpa using h)
            have := (ih (n + 1)).2 hrest
            simp [checkSqlFileOrderGo, h999, this]
      · constructor
        · intro hok
          simp [checkSqlFileOrderGo, h999, heq] at hok
        · rintro ⟨k, hk, hc, hend⟩
          exfalso
          cases k with
          | zero =>
            rcases hend with h | h
            · simp at h
            · simp at h
              exact h999 h
          | succ k' =>
            have := hc 0 (Nat.succ_pos k')
            simp at this
            exact heq this

/-- Everything after the first file numbered 999 is ignored by the check. -/
theorem checkGo_stops_at_999 (pre : List Nat) :
    ∀ e post post',
      checkSqlFileOrderGo e (pre ++ 999 :: post) = checkSqlFileOrderGo e (pre ++ 999 :: post') := by
  induction pre with
  | nil =>
    intro e post post'
    simp [checkSqlFileOrderGo]
  | cons n ps ih =>
    intro e post post'
    by_cases h9 : n = 999
    · simp [checkSqlFileOrderGo, h9]
    · by_cases he : n = e
      · subst he
        simp only [checkSqlFileOrderGo]
        rw [if_neg h9, if_neg h9]
        rw [if_neg (show ¬(n ≠ n) by simp), if_neg (show ¬(n ≠ n) by simp)]
        exact ih _ _ _
      · simp [checkSqlFileOrderGo, h9, he]

/-- The only error the check raises is the ordering `ValueError`. -/
theorem checkGo_error_badOrder (ns : List Nat) :
    ∀ e err, checkSqlFileOrderGo e ns = .error err → err = .badFileOrder := by
  induction ns with
  | nil =>
    intro e err h
    exact absurd h (by simp [checkSqlFileOrderGo])
  | cons n rest ih =>
    intro e err h
    simp only [checkSqlFileOrderGo] at h
    split at h
    · exact Except.noConfusion h
    · split at h
      · exact (Except.error.inj h).symm
      · exact ih _ _ h

end TigerSlack

namespace TigerSlack

/-! ## Claims C7 - C9 -/

/-- C7.  Running the migration runner twice with the same target is
idempotent: if the first run committed (state `s'`), the second run finds the
stored version equal to the target, takes the no-op early return — performing
only the lock/install/lock/init preamble, no incremental and no idempotent
script and no `set_version` — and leaves the stored version row (`version`
and `at`) exactly as the first run left it. -/
theorem c7_migrate_idempotent (target : Version) (now1 now2 : Nat) (inc idem : List Nat)
    (s s' : DBState) (log : List MigEv)
    (h : migrateDb target now1 inc idem s = (log, .ok s')) :
    migrateDb target now2 inc idem s'
      = ([MigEv.tsLock, MigEv.tsInstall, MigEv.migLock, MigEv.init], .ok s') ∧
    ([MigEv.tsLock, MigEv.tsInstall, MigEv.migLock, MigEv.init]).all
      (fun ev => !isScriptEv ev) = true := by
  obtain ⟨v', at', inf'⟩ := s'
  refine ⟨?_, by decide⟩
  have hver : v' = target ∧ inf' = true := by
    simp only [migrateDb] at h
    by_cases h1 : vlt target s.version = true
    · rw [if_pos h1] at h
      simp at h
    · rw [if_neg h1] at h
      by_cases h2 : vlt s.version target = true
      · rw [if_pos h2] at h
        cases hri : runIncremental inc with
        | error e =>
          rw [hri] at h
          simp at h
        | ok evs =>
          rw [hri] at h
          cases hid : runIdempotent idem with
          | error e =>
            rw [hid] at h
            simp at h
          | ok evs2 =>
            rw [hid] at h
            simp only [Prod.mk.injEq, Except.ok.injEq, DBState.mk.injEq] at h
            exact ⟨h.2.1.symm, h.2.2.2.symm⟩
      · rw [if_neg h2] at h
        simp only [Prod.mk.injEq, Except.ok.injEq, DBState.mk.injEq] at h
        have hEq : s.version = target :=
          vlt_total_eq s.version target (Bool.eq_false_iff.mpr h2) (Bool.eq_false_iff.mpr h1)
        exact ⟨h.2.1.symm.trans hEq, h.2.2.2.symm⟩
  obtain ⟨hv, hi⟩ := hver
  subst hi
  subst hv
  simp [migrateDb, vlt_irrefl]

/-- Witness for C7: an upgrade from 1.0.0 to 1.1.0 with two incremental and
one idempotent script, then a second run on the committed state. -/
theorem c7_migrate_idempotent_witness :
    migrateDb ⟨1, 1, 0⟩ 9 [0, 1] [0] ⟨⟨1, 1, 0⟩, 5, true⟩
      = ([MigEv.tsLock, MigEv.tsInstall, MigEv.migLock, MigEv.init],
         .ok ⟨⟨1, 1, 0⟩, 5, true⟩) :=
  (c7_migrate_idempotent ⟨1, 1, 0⟩ 5 9 [0, 1] [0] ⟨⟨1, 0, 0⟩, 0, false⟩ ⟨⟨1, 1, 0⟩, 5, true⟩
    [MigEv.tsLock, MigEv.tsInstall, MigEv.migLock, MigEv.init, MigEv.incremental 0,
     MigEv.incremental 1, MigEv.idempotent 0, MigEv.setVersion ⟨1, 1, 0⟩] rfl).1

/-- C8 counterexample.  Target 1.0.0 against stored 2.0.0: the
`ValueError("Cannot downgrade ...")` is raised, but only AFTER the runner has
done lock work — `install_timescaledb` acquires the advisory lock on its own
connection, and `migrate_db` acquires it again and runs `run_init` before
`is_migration_required` compares versions.  The performed-event log
`[tsLock, tsInstall, migLock, init]` contains the lock acquisitions, refuting
"before any lock work is performed". -/
theorem c8_lock_before_check_counterexample :
    migrateDb ⟨1, 0, 0⟩ 0 [] [] ⟨⟨2, 0, 0⟩, 0, false⟩
      = ([MigEv.tsLock, MigEv.tsInstall, MigEv.migLock, MigEv.init], .error .downgrade) ∧
    MigEv.migLock ∈ [MigEv.tsLock, MigEv.tsInstall, MigEv.migLock, MigEv.init] := by
  exact ⟨rfl, by decide⟩

/-- C8 (amended).  When the target version is strictly below the stored one,
the runner raises the configuration error (`ValueError`, no downgrade
support), no incremental and no idempotent migration script executes, and —
the error unwinding the enclosing transaction — the stored version is
unchanged; the error is however raised only after the advisory lock has been
acquired (twice) and `init.sql` has run, not before any lock work. -/
theorem c8_amended_downgrade_error (target : Version) (now : Nat) (inc idem : List Nat)
    (s : DBState) (h : vlt target s.version = true) :
    migrateDb target now inc idem s
      = ([MigEv.tsLock, MigEv.tsInstall, MigEv.migLock, MigEv.init], .error .downgrade) ∧
    ([MigEv.tsLock, MigEv.tsInstall, MigEv.migLock, MigEv.init]).all
      (fun ev => !isScriptEv ev) = true := by
  exact ⟨by simp [migrateDb, h], by decide⟩

/-- Witness for C8 (amended) at target 1.0.0, stored 2.0.0, non-empty script
directories. -/
theorem c8_amended_downgrade_error_witness :
    migrateDb ⟨1, 0, 0⟩ 7 [0] [0] ⟨⟨2, 0, 0⟩, 3, true⟩
      = ([MigEv.tsLock, MigEv.tsInstall, MigEv.migLock, MigEv.init], .error .downgrade) :=
  (c8_amended_downgrade_error ⟨1, 0, 0⟩ 7 [0] [0] ⟨⟨2, 0, 0⟩, 3, true⟩ (by decide)).1

/-- C9.  For every sorted listing of sequence numbers: the order check
succeeds exactly when the numbers are strictly contiguous from the defined
start (0, since `prev` starts at `-1`) up to either the end of the listing or
a file numbered 999; when it fails, `run_incremental` returns the validation
error without executing any script; and everything sorting after the first
999 is exempt — the check's verdict does not depend on it. -/
theorem c9_order_check (ns : List Nat) :
    (checkSqlFileOrder ns = .ok () ↔ SeqContiguousFrom 0 ns) ∧
    (checkSqlFileOrder ns ≠ .ok () → runIncremental ns = .error .badFileOrder) ∧
    (∀ junk junk',
      checkSqlFileOrder (ns ++ 999 :: junk) = checkSqlFileOrder (ns ++ 999 :: junk')) := by
  refine ⟨checkGo_ok_iff ns 0, ?_, fun junk junk' => checkGo_stops_at_999 ns 0 junk junk'⟩
  intro hne
  cases hc : checkSqlFileOrder ns with
  | ok u =>
    cases u
    exact absurd hc hne
  | error e =>
    have he := checkGo_error_badOrder ns 0 e hc
    subst he
    simp [runIncremental, hc]

/-- Witness for C9: the gapped listing `001, 002, 004` (numbers 0,1,3) is
rejected before any script executes, and files after a 999 are ignored. -/
theorem c9_order_check_witness :
    runIncremental [0, 1, 3] = .error .badFileOrder ∧
    checkSqlFileOrder [0, 1, 999, 77, 3] = checkSqlFileOrder [0, 1, 999, 9] :=
  ⟨(c9_order_check [0, 1, 3]).2.1 (by decide),
   (c9_order_check [0, 1]).2.2 [77, 3] [9]⟩

end TigerSlack

namespace TigerSlack

/-! ## Claims C1 - C4 -/

/-- C1 (the code evaluated at the failing input).  The batching worker can
never flush a batch: `message_buffer` is annotated as a `deque` but assigned a
plain list (import.py line 169), so `message_buffer.popleft()` raises
`AttributeError` on the first queue item that parses to one or more messages,
and the uncaught exception kills the worker before any size-threshold flush or
residual flush is reached — no queue whatsoever produces a flush (first
conjunct).  In particular the spec's end-to-end batching case (one job
yielding items costed 299999, 1, 1, expected to produce exactly two
budget-bounded flushes) crashes flushing nothing (second conjunct).  The
claim's bound over flushed batches is thereby vacuous: the budget-bounded,
exactly-once flushing it describes is not implemented. -/
theorem c1_no_flush_eval :
    (∀ queue : List QItem, (processFileWorker queue ⟨[], []⟩).1 = []) ∧
    workerRun [[⟨0, 299999⟩, ⟨1, 1⟩, ⟨2, 1⟩]] = ([], .crashed .attributeError) :=
  ⟨processFileWorker_no_flush, rfl⟩

/-- C2 (the code evaluated at the failing input).  There is no
`OversizedItemError` anywhere in the code.  For `MAX_BUDGET = 300000` and an
item costed at 300000: `process_file_worker` crashes with the same
`AttributeError` as for any message — at `message_buffer.popleft()`, before
the item's cost is even read — an undistinguishable crash, not a detection of
the oversized item (first conjunct); `add_message_embeddings` opens a fresh
request and admits the item alone, silently sending a request of total cost
300000 ≥ MAX_BUDGET (second conjunct); and when the oversized item is the
first embeddable content, the index skips past the end of the request list
and the code raises a bare `IndexError` instead (third conjunct).  Nowhere a
distinguishable error for the oversized item. -/
theorem c2_oversized_item_eval :
    workerRun [[⟨1, 300000⟩]] = ([], .crashed .attributeError) ∧
    addMessageEmbeddingsRequests [some 1, some 300000] = .ok [[1], [300000]] ∧
    addMessageEmbeddingsRequests [some 300000] = .error () :=
  ⟨rfl, rfl, rfl⟩

/-- C3 counterexample.  A worker whose first queue item is a file whose
read/parse raises: the exception is NOT caught (`process_file_worker` has
`try ... finally:` with no `except`), the worker terminates abnormally,
nothing is flushed and the sentinel is never consumed — refuting "caught and
logged and the worker proceeds to its next queue item". -/
theorem c3_crash_counterexample :
    processFileWorker [QItem.file (Except.error ()), QItem.sentinel] ⟨[], []⟩
      = ([], .crashed .parseError) ∧
    WorkerOutcome.crashed CrashKind.parseError ≠ WorkerOutcome.finished :=
  ⟨rfl, by decide⟩

/-- C3 (amended).  No exception raised in the worker loop is caught.  After
any survivable prefix of queue items — necessarily items that parsed to empty
message lists, the only items a worker survives — a failing read/parse makes
the exception propagate out of the worker (first conjunct), and a well-formed
item with one or more messages kills the worker just the same, via
`AttributeError` at `message_buffer.popleft()` on the plain-list buffer
(second conjunct).  In either case nothing is flushed, all later queue items
(sentinel included) are never consumed, and in `load_messages`'s
`asyncio.TaskGroup` the crash cancels the remaining workers and fails the
pool. -/
theorem c3_amended_crash_propagates (pre : List (List Msg)) (rest : List QItem)
    (hpre : ∀ j ∈ pre, j = ([] : List Msg)) :
    processFileWorker
        (pre.map (fun j => QItem.file (Except.ok j)) ++ QItem.file (Except.error ()) :: rest)
        ⟨[], []⟩
      = ([], .crashed .parseError) ∧
    ∀ msgs : List Msg, msgs ≠ [] →
      processFileWorker
          (pre.map (fun j => QItem.file (Except.ok j)) ++ QItem.file (Except.ok msgs) :: rest)
          ⟨[], []⟩
        = ([], .crashed .attributeError) :=
  ⟨processFileWorker_crash_parse pre rest hpre,
   fun msgs hne => processFileWorker_crash_attr pre msgs rest hpre hne⟩

/-- Witness for C3 (amended): one empty-file prefix, then a failing file
(resp. a one-message file), then the sentinel. -/
theorem c3_amended_crash_propagates_witness :
    processFileWorker
        [QItem.file (Except.ok []), QItem.file (Except.error ()), QItem.sentinel] ⟨[], []⟩
      = ([], .crashed .parseError) ∧
    processFileWorker
        [QItem.file (Except.ok []), QItem.file (Except.ok [⟨3, 4⟩]), QItem.sentinel] ⟨[], []⟩
      = ([], .crashed .attributeError) :=
  ⟨(c3_amended_crash_propagates [[]] [QItem.sentinel] (by simp)).1,
   (c3_amended_crash_propagates [[]] [QItem.sentinel] (by simp)).2 [⟨3, 4⟩] (by simp)⟩

/-- C4 (the code evaluated at the failing input).  The pool's exactly-once
flushing discipline is unreachable: a worker assigned any job that parses to
one or more messages crashes with the `AttributeError` at
`message_buffer.popleft()` (first conjunct), and the uncaught exception makes
`load_messages`'s `asyncio.TaskGroup` cancel the other workers and fail the
pool, so the job's messages are never flushed at all — indeed no worker ever
flushes anything on any queue (second conjunct).  The pool runs to completion
only in the degenerate case where every job parses to an empty message list:
each worker then consumes its jobs and its one sentinel and finishes having
flushed nothing (third conjunct). -/
theorem c4_pool_crash_eval :
    workerRun [[⟨0, 1⟩]] = ([], .crashed .attributeError) ∧
    (∀ jobs : List (List Msg), (workerRun jobs).1 = []) ∧
    (∀ jobs : List (List Msg), (∀ j ∈ jobs, j = ([] : List Msg)) →
      workerRun jobs = ([], .finished)) :=
  ⟨rfl, fun _ => processFileWorker_no_flush _, workerRun_all_empty⟩

/-- Witness for C4: a two-empty-job worker finishes at its sentinel, and the
one-message worker flushes nothing. -/
theorem c4_pool_crash_eval_witness :
    workerRun [[], []] = ([], WorkerOutcome.finished) ∧
    (workerRun [[⟨0, 1⟩]]).1 = [] :=
  ⟨c4_pool_crash_eval.2.2 [[], []] (by simp),
   c4_pool_crash_eval.2.1 [[⟨0, 1⟩]]⟩

end TigerSlack
